import Mathlib

/-!
Verification development for the AutaMedica appointment scheduling module.

The definitions below are a shallow embedding of the repository's
TypeScript source:

* the appointment data model and the overlap pre-check
  `validateAppointmentOverlap` (hooks module, `useAppointments`);
* the appointment store operations `createAppointment`,
  `updateAppointment`, `deleteAppointment` modelled as list transformers;
* the retrying `EmailService.send` loop (`email.service.ts`);
* the appointment e-mail orchestration `sendConfirmationEmail` and
  `sendBatchReminders` (`appointmentEmails`);
* the ICS calendar generator (`ics-generator.ts`);
* the Argentina time-policy predicates (`packages/utils/src/index.ts`).

Timestamps are modelled as integer epoch seconds; ISO-8601 UTC timestamp
strings compare lexicographically exactly as their instants do, so the
string comparisons performed by the storage query are faithfully rendered
as integer comparisons.  Fallible effects (the storage query, the e-mail
transport) are modelled with `Except String`.
-/

/-- Appointment status, from the `AppointmentStatus` union type. -/
inductive AppointmentStatus where
  | scheduled
  | confirmed
  | inProgress
  | completed
  | cancelled
  | noShow
  | rescheduled
deriving DecidableEq, Repr

/-- The central appointment entity (table `appointments`). -/
structure Appointment where
  id : String
  patient_id : String
  doctor_id : String
  starts_at : Int
  ends_at : Int
  status : AppointmentStatus
  notes : Option String
deriving DecidableEq, Repr

/-- Projection selected by the overlap query:
`select('id, starts_at, ends_at, doctor_id')`. -/
structure ConflictingAppointment where
  id : String
  starts_at : Int
  ends_at : Int
  doctor_id : String
deriving DecidableEq, Repr

/-- Result shape `AppointmentOverlapValidation`. -/
structure AppointmentOverlapValidation where
  hasOverlap : Bool
  conflictingAppointments : List ConflictingAppointment
  message : Option String
deriving DecidableEq, Repr

/-- The row filter applied by the overlap query in
`validateAppointmentOverlap`:
`.eq('doctor_id', doctorId).neq('status', 'cancelled')`
`.or(and(starts_at.lt.endsAt, ends_at.gt.startsAt))` and, when an
exclusion id is supplied, `.neq('id', excludeId)`. -/
def overlapsCandidate (startsAt endsAt : Int) (doctorId : String)
    (excludeId : Option String) (a : Appointment) : Bool :=
  a.doctor_id == doctorId &&
  !(a.status == AppointmentStatus.cancelled) &&
  decide (a.starts_at < endsAt) &&
  decide (a.ends_at > startsAt) &&
  (match excludeId with
   | some e => !(a.id == e)
   | none => true)

/-- Column projection performed by the overlap query. -/
def conflictProjection (a : Appointment) : ConflictingAppointment :=
  ⟨a.id, a.starts_at, a.ends_at, a.doctor_id⟩

/-- Message synthesized when conflicts are found. -/
def overlapMessage (n : Nat) : String :=
  "Conflicto de horario detectado. Hay " ++ toString n ++
    " cita(s) en ese horario."

/-- `validateAppointmentOverlap` from the `useAppointments` hook.  The
storage query outcome is passed in as `db`: `Except.ok rows` is the
appointment table visible to the query, `Except.error e` a failed fetch.
On a query error the surrounding `catch` returns `hasOverlap := false`,
an empty conflict list and the error text as `message`. -/
def validateAppointmentOverlap (startsAt endsAt : Int) (doctorId : String)
    (excludeId : Option String) (db : Except String (List Appointment)) :
    AppointmentOverlapValidation :=
  match db with
  | Except.error e => ⟨false, [], some e⟩
  | Except.ok rows =>
    let overlapping :=
      (rows.filter (overlapsCandidate startsAt endsAt doctorId excludeId)).map
        conflictProjection
    let hasOverlap := decide (overlapping.length > 0)
    ⟨hasOverlap,
     overlapping,
     if overlapping.length > 0 then some (overlapMessage overlapping.length)
     else none⟩

example :
    (validateAppointmentOverlap 10 20 "d" none
      (Except.ok [⟨"a1", "p", "d", 15, 25, AppointmentStatus.scheduled, none⟩])).hasOverlap
      = true := by decide

example :
    (validateAppointmentOverlap 10 20 "d" none
      (Except.ok [⟨"a1", "p", "d", 20, 30, AppointmentStatus.scheduled, none⟩])).hasOverlap
      = false := by decide

/-! ## Appointment store operations

`useAppointments` exposes three mutating operations on the appointments
table: `createAppointment` (an insert), `updateAppointment`
(`update({...input}).eq('id', id)`, a patch that never touches the row's
identity) and `deleteAppointment` (`delete().eq('id', id)`, a physical
row removal).  They are modelled as transformers of the table contents. -/

/-- The patch shape `UpdateAppointmentInput`: all fields optional. -/
structure UpdateAppointmentInput where
  starts_at : Option Int
  ends_at : Option Int
  status : Option AppointmentStatus
  notes : Option String
deriving DecidableEq, Repr

/-- Applying an update patch to a row: present fields overwrite, the id
and the participants are untouched. -/
def applyPatch (patch : UpdateAppointmentInput) (a : Appointment) :
    Appointment :=
  ⟨a.id, a.patient_id, a.doctor_id,
   patch.starts_at.getD a.starts_at,
   patch.ends_at.getD a.ends_at,
   patch.status.getD a.status,
   match patch.notes with
   | some n => some n
   | none => a.notes⟩

/-- One storage mutation issued by the hook. -/
inductive AppointmentOp where
  | create (a : Appointment)
  | update (id : String) (patch : UpdateAppointmentInput)
  | delete (id : String)
deriving DecidableEq, Repr

/-- Effect of a single operation on the appointments table. -/
def applyOp (db : List Appointment) : AppointmentOp → List Appointment
  | AppointmentOp.create a => db ++ [a]
  | AppointmentOp.update i patch =>
      db.map (fun a => if a.id == i then applyPatch patch a else a)
  | AppointmentOp.delete i => db.filter (fun a => !(a.id == i))

/-- Effect of a sequence of operations, applied left to right. -/
def applyOps (ops : List AppointmentOp) (db : List Appointment) :
    List Appointment :=
  ops.foldl applyOp db

/-! ## Time policy (`packages/utils/src/index.ts`)

The Argentina timezone is the fixed offset UTC-3 (the repository's own
VTIMEZONE block declares `TZOFFSETFROM:-0300`/`TZOFFSETTO:-0300`, no
DST).  `toArgentinaTimezone` re-bases an instant so that the JavaScript
local accessors (`getDay`, `getHours`) read Argentina wall-clock values;
on epoch seconds that re-basing is a shift by -3 hours.  `getDay` yields
0 = Sunday … 6 = Saturday, with epoch day zero (1970-01-01) a Thursday. -/

def toArgentinaTimezone (t : Int) : Int := t - 3 * 3600

/-- JavaScript `Date.prototype.getDay` on epoch seconds. -/
def jsGetDay (t : Int) : Int := (t.fdiv 86400 + 4).emod 7

/-- JavaScript `Date.prototype.getHours` on epoch seconds. -/
def jsGetHours (t : Int) : Int := (t.emod 86400).fdiv 3600

/-- `isWeekday`: `day >= 1 && day <= 5` on the Argentina-rebased date. -/
def isWeekday (t : Int) : Bool :=
  let day := jsGetDay (toArgentinaTimezone t)
  decide (day ≥ 1) && decide (day ≤ 5)

/-- `isValidMedicalHour`: `hour >= 8 && hour < 20` on the
Argentina-rebased date. -/
def isValidMedicalHour (t : Int) : Bool :=
  let hour := jsGetHours (toArgentinaTimezone t)
  decide (hour ≥ 8) && decide (hour < 20)

/-- `isFutureInArgentina`: `toArgentinaTimezone(d) > nowInArgentina()`,
with the current instant passed in explicitly. -/
def isFutureInArgentina (t now : Int) : Bool :=
  decide (toArgentinaTimezone t > toArgentinaTimezone now)

/-- Spec-side day-of-week names for the Argentina wall clock. -/
inductive DayOfWeek where
  | sunday
  | monday
  | tuesday
  | wednesday
  | thursday
  | friday
  | saturday
deriving DecidableEq, Repr

/-- The calendar day of week an instant falls on in Argentina. -/
def dayOfWeekInArgentina (t : Int) : DayOfWeek :=
  let d := jsGetDay (toArgentinaTimezone t)
  if d = 0 then DayOfWeek.sunday
  else if d = 1 then DayOfWeek.monday
  else if d = 2 then DayOfWeek.tuesday
  else if d = 3 then DayOfWeek.wednesday
  else if d = 4 then DayOfWeek.thursday
  else if d = 5 then DayOfWeek.friday
  else DayOfWeek.saturday

/-- The Argentina wall-clock hour of an instant. -/
def argentinaLocalHour (t : Int) : Int :=
  jsGetHours (toArgentinaTimezone t)

example : isWeekday 0 = true := by decide
example : isValidMedicalHour 0 = false := by decide
example : isFutureInArgentina 5 4 = true := by decide
example : isFutureInArgentina 4 4 = false := by decide

/-! ## EmailService retry loop (`email.service.ts`)

`EmailService.send` loops `attempt = 1 .. retryAttempts`, calling the
provider each round; a success returns at once, a failure records the
error and, when further attempts remain, sleeps `retryDelayMs * attempt`
before the next round.  When the loop ends the last error is re-thrown
wrapped as `Failed to send email after N attempts: <message>`.

The provider is a function from the (1-based) attempt number to the
outcome of that transport call, and the outcome records, besides the
result, how many transport calls were made and the list of sleeps. -/

structure EmailProviderResponse where
  messageId : Option String
deriving DecidableEq, Repr

instance exceptDecEq {ε α : Type} [DecidableEq ε] [DecidableEq α] :
    DecidableEq (Except ε α)
  | Except.error a, Except.error b =>
    if h : a = b then isTrue (by rw [h])
    else isFalse (by intro hc; injection hc; contradiction)
  | Except.error _, Except.ok _ => isFalse (by intro h; cases h)
  | Except.ok _, Except.error _ => isFalse (by intro h; cases h)
  | Except.ok a, Except.ok b =>
    if h : a = b then isTrue (by rw [h])
    else isFalse (by intro hc; injection hc; contradiction)

structure SendOutcome where
  result : Except String EmailProviderResponse
  transportCalls : Nat
  delays : List Nat
deriving DecidableEq, Repr

/-- The wrapped error thrown after retry exhaustion; a missing last
error renders as the string `undefined`, as the JS template does. -/
def sendFailureMessage (retryAttempts : Nat) (lastError : Option String) :
    String :=
  "Failed to send email after " ++ toString retryAttempts ++
    " attempts: " ++ (match lastError with
                      | some m => m
                      | none => "undefined")

/-- The retry loop body: `remaining` counts the loop iterations still
allowed (`retryAttempts - attempt + 1` at entry).  When the iterations
are exhausted the last error is re-thrown wrapped; an iteration calls
the provider, returns on success, and on failure sleeps
`retryDelayMs * attempt` — but only under the loop's own guard
`attempt < retryAttempts` — before continuing with the recorded error. -/
def emailSendGo (provider : Nat → Except String EmailProviderResponse)
    (retryAttempts retryDelayMs attempt : Nat) :
    Nat → Option String → SendOutcome
  | 0, lastError =>
    ⟨Except.error (sendFailureMessage retryAttempts lastError), 0, []⟩
  | r + 1, _ =>
    match provider attempt with
    | Except.ok resp => ⟨Except.ok resp, 1, []⟩
    | Except.error e =>
      let rest :=
        emailSendGo provider retryAttempts retryDelayMs (attempt + 1) r
          (some e)
      ⟨rest.result, rest.transportCalls + 1,
       (if attempt < retryAttempts then [retryDelayMs * attempt] else []) ++
         rest.delays⟩

/-- `EmailService.send`, starting at attempt 1 with no previous error. -/
def emailSend (provider : Nat → Except String EmailProviderResponse)
    (retryAttempts retryDelayMs : Nat) : SendOutcome :=
  emailSendGo provider retryAttempts retryDelayMs 1 retryAttempts none

/-- Constructor default `retryAttempts: 3`. -/
def defaultRetryAttempts : Nat := 3

/-- Constructor default `retryDelayMs: 1000`. -/
def defaultRetryDelayMs : Nat := 1000

example :
    emailSend (fun _ => Except.error "boom") 3 1000 =
      ⟨Except.error "Failed to send email after 3 attempts: boom", 3,
       [1000, 2000]⟩ := by decide

example :
    emailSend (fun i => if i = 2 then Except.ok ⟨some "id"⟩ else Except.error "x")
      3 1000 =
      ⟨Except.ok ⟨some "id"⟩, 2, [1000]⟩ := by decide

/-! ## Appointment e-mail orchestration (`appointmentEmails`) -/

/-- `EmailRecipient` (the `role` field plays no part in the logic). -/
structure EmailRecipient where
  name : String
  email : String
deriving DecidableEq, Repr

/-- One entry of the list handed to `sendBatchReminders`. -/
structure BatchReminderItem where
  appointment : Appointment
  doctor : EmailRecipient
  patient : EmailRecipient
  hoursBefore : Nat
deriving DecidableEq, Repr

/-- Aggregate result of `sendBatchReminders`. -/
structure BatchReminderResult where
  successful : Nat
  failed : Nat
  errors : List String
deriving DecidableEq, Repr

/-- `sendBatchReminders`: iterate the items in order; each item's
`sendReminderEmail` outcome (here the function `sendReminder`) either
bumps `successful` or bumps `failed` and appends
`Appointment <id>: <message>` to `errors`; a failure never stops the
loop. -/
def sendBatchReminders (sendReminder : BatchReminderItem → Except String Unit)
    (items : List BatchReminderItem) : BatchReminderResult :=
  items.foldl
    (fun results item =>
      match sendReminder item with
      | Except.ok _ => ⟨results.successful + 1, results.failed, results.errors⟩
      | Except.error e =>
        ⟨results.successful, results.failed + 1,
         results.errors ++
           ["Appointment " ++ item.appointment.id ++ ": " ++ e]⟩)
    ⟨0, 0, []⟩

/-- `sendConfirmationEmail`: deliver the patient e-mail (transport call
0); on success, when the doctor e-mail is non-empty and differs from the
patient e-mail, deliver the doctor copy (transport call 1).  Any
transport error is caught by the surrounding `catch` and re-thrown as
`Failed to send confirmation email: <message>`.  The result pairs the
reported outcome with the number of transport calls made. -/
def sendConfirmationEmail (send : Nat → Except String Unit)
    (doctorEmail patientEmail : String) : Except String Unit × Nat :=
  match send 0 with
  | Except.error e =>
    (Except.error ("Failed to send confirmation email: " ++ e), 1)
  | Except.ok _ =>
    if !(doctorEmail == "") && !(doctorEmail == patientEmail) then
      match send 1 with
      | Except.error e =>
        (Except.error ("Failed to send confirmation email: " ++ e), 2)
      | Except.ok _ => (Except.ok (), 2)
    else
      (Except.ok (), 1)

example :
    sendBatchReminders
      (fun item => if item.appointment.id == "a2" then Except.error "Network error"
                   else Except.ok ())
      [⟨⟨"a1", "p", "d", 0, 1, AppointmentStatus.confirmed, none⟩, ⟨"D", "d@x"⟩, ⟨"P", "p@x"⟩, 24⟩,
       ⟨⟨"a2", "p", "d", 0, 1, AppointmentStatus.confirmed, none⟩, ⟨"D", "d@x"⟩, ⟨"Q", "q@x"⟩, 2⟩,
       ⟨⟨"a3", "p", "d", 0, 1, AppointmentStatus.confirmed, none⟩, ⟨"D", "d@x"⟩, ⟨"R", "r@x"⟩, 24⟩] =
      ⟨2, 1, ["Appointment a2: Network error"]⟩ := by decide

example :
    sendConfirmationEmail
      (fun i => if i = 0 then Except.ok () else Except.error "boom")
      "doc@x" "pat@x" =
      (Except.error "Failed to send confirmation email: boom", 2) := by decide

/-! ## ICS calendar generator (`ics-generator.ts`)

`generateICS` builds the calendar text as a list of lines joined by
CRLF.  The impure inputs of the source are passed in explicitly: `now`
(the `DTSTAMP` instant) and `fallbackUid` (the random
`generateUID()` value, used only when the event carries no uid — both
repository call sites always set a uid). -/

inductive ICSStatus where
  | tentative
  | confirmed
  | cancelled
deriving DecidableEq, Repr

/-- The literal the status renders as. -/
def icsStatusText : ICSStatus → String
  | ICSStatus.tentative => "TENTATIVE"
  | ICSStatus.confirmed => "CONFIRMED"
  | ICSStatus.cancelled => "CANCELLED"

structure ICSPerson where
  name : String
  email : String
deriving DecidableEq, Repr

structure ICSEventData where
  title : String
  description : Option String
  location : Option String
  startDate : Int
  endDate : Int
  organizer : Option ICSPerson
  attendee : Option ICSPerson
  uid : Option String
  sequence : Option Nat
  status : Option ICSStatus
  reminder : Option Nat
deriving DecidableEq, Repr

/-- `escapeText`: the source's chained `String.replace` passes. -/
def escapeText (text : String) : String :=
  ((((text.replace "\\" "\\\\").replace ";" "\\;").replace "," "\\,").replace
      "\n" "\\n").replace "\r" ""

/-- Two-digit zero padding (`String(x).padStart(2, '0')`). -/
def pad2 (n : Nat) : String :=
  if n < 10 then "0" ++ toString n else toString n

/-- Civil date from a day count relative to 1970-01-01
(proleptic Gregorian). -/
def civilFromDays (z : Int) : Int × Nat × Nat :=
  let z := z + 719468
  let era := z.fdiv 146097
  let doe := (z - era * 146097).toNat
  let yoe := (doe - doe / 1460 + doe / 36524 - doe / 146096) / 365
  let y := era * 400 + (yoe : Int)
  let doy := doe - (365 * yoe + yoe / 4 - yoe / 100)
  let mp := (5 * doy + 2) / 153
  let d := doy - (153 * mp + 2) / 5 + 1
  let m := if mp < 10 then mp + 3 else mp - 9
  (if m ≤ 2 then y + 1 else y, m, d)

/-- `formatDate`: `YYYYMMDDTHHMMSS` from epoch seconds. -/
def formatDate (t : Int) : String :=
  let days := t.fdiv 86400
  let secs := (t.emod 86400).toNat
  let c := civilFromDays days
  toString c.1 ++ pad2 c.2.1 ++ pad2 c.2.2 ++ "T" ++
    pad2 (secs / 3600) ++ pad2 (secs % 3600 / 60) ++ pad2 (secs % 60)

example : formatDate 0 = "19700101T000000" := by decide
example : formatDate 1705314600 = "20240115T103000" := by decide

/-- `generateICS` before the final `join('\r\n')`: the `lines` array,
with every conditional `push` of the source rendered as an optional
segment. -/
def generateICSLines (now : Int) (fallbackUid : String)
    (event : ICSEventData) : List String :=
  ["BEGIN:VCALENDAR",
   "VERSION:2.0",
   "PRODID:-//AutaMedica//Medical Appointments//ES",
   "METHOD:REQUEST",
   "CALSCALE:GREGORIAN",
   "",
   "BEGIN:VTIMEZONE",
   "TZID:America/Argentina/Buenos_Aires",
   "X-LIC-LOCATION:America/Argentina/Buenos_Aires",
   "BEGIN:STANDARD",
   "TZOFFSETFROM:-0300",
   "TZOFFSETTO:-0300",
   "TZNAME:ART",
   "DTSTART:19700101T000000",
   "END:STANDARD",
   "END:VTIMEZONE",
   "",
   "BEGIN:VEVENT",
   "UID:" ++ event.uid.getD fallbackUid,
   "DTSTAMP:" ++ formatDate now,
   "DTSTART;TZID=America/Argentina/Buenos_Aires:" ++ formatDate event.startDate,
   "DTEND;TZID=America/Argentina/Buenos_Aires:" ++ formatDate event.endDate,
   "SUMMARY:" ++ escapeText event.title] ++
  (match event.description with
   | some d => ["DESCRIPTION:" ++ escapeText d]
   | none => []) ++
  (match event.location with
   | some l => ["LOCATION:" ++ escapeText l]
   | none => []) ++
  (match event.organizer with
   | some o => ["ORGANIZER;CN=" ++ escapeText o.name ++ ":mailto:" ++ o.email]
   | none => []) ++
  (match event.attendee with
   | some a => ["ATTENDEE;CN=" ++ escapeText a.name ++ ";RSVP=TRUE:mailto:" ++ a.email]
   | none => []) ++
  (match event.status with
   | some s => ["STATUS:" ++ icsStatusText s]
   | none => []) ++
  (match event.sequence with
   | some n => ["SEQUENCE:" ++ toString n]
   | none => []) ++
  (match event.reminder with
   | some r =>
     if r = 0 then []
     else
       ["BEGIN:VALARM",
        "TRIGGER:-PT" ++ toString r ++ "M",
        "ACTION:DISPLAY",
        "DESCRIPTION:Recordatorio: " ++ escapeText event.title,
        "END:VALARM"]
   | none => []) ++
  ["END:VEVENT", "END:VCALENDAR"]

/-- `generateICS`: the joined CRLF text. -/
def generateICS (now : Int) (fallbackUid : String) (event : ICSEventData) :
    String :=
  String.intercalate "\r\n" (generateICSLines now fallbackUid event)

/-- JavaScript truthiness for an optional string default
(`value || fallback`). -/
def jsStringOr (v : Option String) (fallback : String) : String :=
  match v with
  | some s => if s == "" then fallback else s
  | none => fallback

/-- JavaScript truthiness for an optional e-mail turned into a
person record (`email ? { name, email } : undefined`). -/
def jsPersonOf (name : String) (email : Option String) : Option ICSPerson :=
  match email with
  | some e => if e == "" then none else some ⟨name, e⟩
  | none => none

/-- The `eventData` literal of `generateAppointmentICS`. -/
def appointmentICSEvent (appointment : Appointment)
    (doctorName patientName : String)
    (doctorEmail patientEmail : Option String) : ICSEventData :=
  ⟨"Cita médica con " ++ doctorName,
   some (jsStringOr appointment.notes "Cita médica programada"),
   some "Consultorio médico - AutaMedica",
   appointment.starts_at,
   appointment.ends_at,
   jsPersonOf doctorName doctorEmail,
   jsPersonOf patientName patientEmail,
   some (appointment.id ++ "@autamedica.com"),
   some 0,
   some (if appointment.status == AppointmentStatus.confirmed then
           ICSStatus.confirmed
         else ICSStatus.tentative),
   some 120⟩

/-- `generateAppointmentICS`, as the pre-join line list. -/
def generateAppointmentICSLines (now : Int) (fallbackUid : String)
    (appointment : Appointment) (doctorName patientName : String)
    (doctorEmail patientEmail : Option String) : List String :=
  generateICSLines now fallbackUid
    (appointmentICSEvent appointment doctorName patientName doctorEmail
      patientEmail)

/-- `generateAppointmentICS`. -/
def generateAppointmentICS (now : Int) (fallbackUid : String)
    (appointment : Appointment) (doctorName patientName : String)
    (doctorEmail patientEmail : Option String) : String :=
  generateICS now fallbackUid
    (appointmentICSEvent appointment doctorName patientName doctorEmail
      patientEmail)

/-- The `eventData` literal of `generateCancellationICS`. -/
def cancellationICSEvent (appointment : Appointment) (doctorName : String)
    (reason : Option String) : ICSEventData :=
  ⟨"CANCELADA: Cita médica con " ++ doctorName,
   some (match reason with
         | some r =>
           if r == "" then "Esta cita ha sido cancelada."
           else "Esta cita ha sido cancelada. Motivo: " ++ r
         | none => "Esta cita ha sido cancelada."),
   some "Consultorio médico - AutaMedica",
   appointment.starts_at,
   appointment.ends_at,
   none,
   none,
   some (appointment.id ++ "@autamedica.com"),
   some 1,
   some ICSStatus.cancelled,
   none⟩

/-- `generateCancellationICS`, as the pre-join line list. -/
def generateCancellationICSLines (now : Int) (fallbackUid : String)
    (appointment : Appointment) (doctorName patientName : String)
    (reason : Option String) : List String :=
  generateICSLines now fallbackUid
    (cancellationICSEvent appointment doctorName reason)

/-- `generateCancellationICS`. -/
def generateCancellationICS (now : Int) (fallbackUid : String)
    (appointment : Appointment) (doctorName patientName : String)
    (reason : Option String) : String :=
  generateICS now fallbackUid
    (cancellationICSEvent appointment doctorName reason)

/-! ## Theorems for the overlap detector -/

theorem overlapsCandidate_eq_true (startsAt endsAt : Int) (doctorId : String)
    (excludeId : Option String) (a : Appointment) :
    overlapsCandidate startsAt endsAt doctorId excludeId a = true ↔
      (a.doctor_id = doctorId ∧ a.status ≠ AppointmentStatus.cancelled ∧
       (∀ e, excludeId = some e → a.id ≠ e) ∧
       a.starts_at < endsAt ∧ a.ends_at > startsAt) := by
  cases excludeId with
  | none =>
    simp [overlapsCandidate]
    tauto
  | some e₀ =>
    simp [overlapsCandidate]
    tauto

/-- C1: the overlap check reports `hasOverlap = true` exactly when some
appointment of the doctor with status ≠ cancelled, id ≠ excludeId,
`starts_at < endsAt` and `ends_at > startsAt` exists;
`conflictingAppointments` holds exactly the (projected) rows satisfying
that condition; and boundary-touching ranges (an appointment ending
exactly at the candidate start, or starting exactly at the candidate
end) are never flagged. -/
theorem validateAppointmentOverlap_correct
    (startsAt endsAt : Int) (doctorId : String) (excludeId : Option String)
    (rows : List Appointment) :
    ((validateAppointmentOverlap startsAt endsAt doctorId excludeId
        (Except.ok rows)).hasOverlap = true ↔
      ∃ a ∈ rows, a.doctor_id = doctorId ∧
        a.status ≠ AppointmentStatus.cancelled ∧
        (∀ e, excludeId = some e → a.id ≠ e) ∧
        a.starts_at < endsAt ∧ a.ends_at > startsAt) ∧
    (∀ c, c ∈ (validateAppointmentOverlap startsAt endsAt doctorId excludeId
        (Except.ok rows)).conflictingAppointments ↔
      ∃ a ∈ rows, (a.doctor_id = doctorId ∧
        a.status ≠ AppointmentStatus.cancelled ∧
        (∀ e, excludeId = some e → a.id ≠ e) ∧
        a.starts_at < endsAt ∧ a.ends_at > startsAt) ∧
        conflictProjection a = c) ∧
    (∀ a : Appointment, a.ends_at = startsAt ∨ a.starts_at = endsAt →
      overlapsCandidate startsAt endsAt doctorId excludeId a = false) := by
  refine ⟨?_, ?_, ?_⟩
  · simp only [validateAppointmentOverlap, decide_eq_true_eq,
      List.length_pos_iff_exists_mem, List.mem_map, List.mem_filter,
      gt_iff_lt]
    constructor
    · rintro ⟨c, a, ⟨ha, hf⟩, rfl⟩
      exact ⟨a, ha, (overlapsCandidate_eq_true _ _ _ _ _).mp hf⟩
    · rintro ⟨a, ha, hp⟩
      exact ⟨conflictProjection a, a,
        ⟨ha, (overlapsCandidate_eq_true _ _ _ _ _).mpr hp⟩, rfl⟩
  · intro c
    simp only [validateAppointmentOverlap, List.mem_map, List.mem_filter]
    constructor
    · rintro ⟨a, ⟨ha, hf⟩, rfl⟩
      exact ⟨a, ha, (overlapsCandidate_eq_true _ _ _ _ _).mp hf, rfl⟩
    · rintro ⟨a, ha, hp, rfl⟩
      exact ⟨a, ⟨ha, (overlapsCandidate_eq_true _ _ _ _ _).mpr hp⟩, rfl⟩
  · intro a h
    rcases h with h | h <;> simp [overlapsCandidate, h]

theorem validateAppointmentOverlap_correct_witness :
    overlapsCandidate 1030 1100 "D" none
      ⟨"x", "p", "D", 1000, 1030, AppointmentStatus.scheduled, none⟩ = false :=
  (validateAppointmentOverlap_correct 1030 1100 "D" none []).2.2
    ⟨"x", "p", "D", 1000, 1030, AppointmentStatus.scheduled, none⟩
    (Or.inl rfl)

/-- C6 counterexample: a call whose input violates `endsAt > startsAt`
(here `startsAt = endsAt = 5`) does not fail with any error — it returns
a normal overlap-validation result, here even one reporting a conflict
for the zero-length range strictly inside an existing appointment. -/
theorem validateAppointmentOverlap_no_range_check_cex :
    ¬ ((5 : Int) < 5) ∧
    validateAppointmentOverlap 5 5 "d" none
      (Except.ok [⟨"a1", "p", "d", 0, 10, AppointmentStatus.scheduled, none⟩]) =
      ⟨true, [⟨"a1", 0, 10, "d"⟩],
       some "Conflicto de horario detectado. Hay 1 cita(s) en ese horario."⟩ := by
  decide

/-- C6 amended: the overlap check performs no validation of the range.
A call with `endsAt ≤ startsAt` returns a normal overlap-validation
result computed by the same half-open intersection filter. -/
theorem validateAppointmentOverlap_degenerate_range
    (startsAt endsAt : Int) (doctorId : String) (excludeId : Option String)
    (rows : List Appointment) (h : endsAt ≤ startsAt) :
    ((validateAppointmentOverlap startsAt endsAt doctorId excludeId
        (Except.ok rows)).hasOverlap = true ↔
      ∃ a ∈ rows, overlapsCandidate startsAt endsAt doctorId excludeId a
        = true) ∧
    (validateAppointmentOverlap startsAt endsAt doctorId excludeId
        (Except.ok rows)).conflictingAppointments =
      (rows.filter (overlapsCandidate startsAt endsAt doctorId excludeId)).map
        conflictProjection := by
  constructor
  · simp only [validateAppointmentOverlap, decide_eq_true_eq,
      List.length_pos_iff_exists_mem, List.mem_map, List.mem_filter]
    constructor
    · rintro ⟨c, a, ⟨ha, hf⟩, rfl⟩
      exact ⟨a, ha, hf⟩
    · rintro ⟨a, ha, hf⟩
      exact ⟨conflictProjection a, a, ⟨ha, hf⟩, rfl⟩
  · rfl

theorem validateAppointmentOverlap_degenerate_range_witness :
    (validateAppointmentOverlap 5 5 "d" none
      (Except.ok [⟨"a1", "p", "d", 0, 10, AppointmentStatus.scheduled, none⟩])).hasOverlap
      = true :=
  (validateAppointmentOverlap_degenerate_range 5 5 "d" none
    [⟨"a1", "p", "d", 0, 10, AppointmentStatus.scheduled, none⟩]
    (by norm_num)).1.mpr
    ⟨⟨"a1", "p", "d", 0, 10, AppointmentStatus.scheduled, none⟩,
     List.mem_singleton.mpr rfl, by decide⟩

/-- C7 counterexample: with one conflicting appointment the synthesized
message is `Conflicto de horario detectado. Hay 1 cita(s) en ese
horario.`, not `Conflicto detectado: 1 cita(s) en ese horario` as the
claim states. -/
theorem validateAppointmentOverlap_message_cex :
    (validateAppointmentOverlap 10 20 "d" none
      (Except.ok [⟨"a1", "p", "d", 15, 25, AppointmentStatus.scheduled, none⟩])).hasOverlap
      = true ∧
    (validateAppointmentOverlap 10 20 "d" none
      (Except.ok [⟨"a1", "p", "d", 15, 25, AppointmentStatus.scheduled, none⟩])).message
      ≠ some "Conflicto detectado: 1 cita(s) en ese horario" ∧
    (validateAppointmentOverlap 10 20 "d" none
      (Except.ok [⟨"a1", "p", "d", 15, 25, AppointmentStatus.scheduled, none⟩])).message
      = some "Conflicto de horario detectado. Hay 1 cita(s) en ese horario." := by
  decide

/-- C7 amended: `hasOverlap = (count > 0)`; when `count = N > 0` the
message is `Conflicto de horario detectado. Hay N cita(s) en ese
horario.`, and when no conflict is found the message is absent. -/
theorem validateAppointmentOverlap_message_spec
    (startsAt endsAt : Int) (doctorId : String) (excludeId : Option String)
    (rows : List Appointment) :
    (validateAppointmentOverlap startsAt endsAt doctorId excludeId
        (Except.ok rows)).hasOverlap =
      decide ((rows.filter
        (overlapsCandidate startsAt endsAt doctorId excludeId)).length > 0) ∧
    ((rows.filter (overlapsCandidate startsAt endsAt doctorId
        excludeId)).length > 0 →
      (validateAppointmentOverlap startsAt endsAt doctorId excludeId
          (Except.ok rows)).message =
        some ("Conflicto de horario detectado. Hay " ++
          toString (rows.filter (overlapsCandidate startsAt endsAt doctorId
            excludeId)).length ++ " cita(s) en ese horario.")) ∧
    ((rows.filter (overlapsCandidate startsAt endsAt doctorId
        excludeId)).length = 0 →
      (validateAppointmentOverlap startsAt endsAt doctorId excludeId
          (Except.ok rows)).message = none) := by
  refine ⟨?_, ?_, ?_⟩
  · simp [validateAppointmentOverlap]
  · intro h
    simp only [validateAppointmentOverlap, List.length_map, overlapMessage]
    rw [if_pos h]
  · intro h
    simp only [validateAppointmentOverlap, List.length_map]
    rw [if_neg (by omega)]

theorem validateAppointmentOverlap_message_spec_witness :
    (validateAppointmentOverlap 10 20 "d" none
      (Except.ok [⟨"a1", "p", "d", 15, 25, AppointmentStatus.scheduled, none⟩])).message
      = some "Conflicto de horario detectado. Hay 1 cita(s) en ese horario." := by
  have h := (validateAppointmentOverlap_message_spec 10 20 "d" none
    [⟨"a1", "p", "d", 15, 25, AppointmentStatus.scheduled, none⟩]).2.1
    (by decide)
  rw [h]
  decide

/-- C10: when the storage query fails, the overlap check does not
propagate the error — it returns `hasOverlap = false`, an empty conflict
list, and the error text in the `message` field. -/
theorem validateAppointmentOverlap_storage_error
    (startsAt endsAt : Int) (doctorId : String) (excludeId : Option String)
    (e : String) :
    validateAppointmentOverlap startsAt endsAt doctorId excludeId
        (Except.error e) =
      ⟨false, [], some e⟩ :=
  rfl

/-! ## Theorems for the appointment store -/

/-- Whether an operation is the physical `deleteAppointment`. -/
def isDeleteOp : AppointmentOp → Bool
  | AppointmentOp.delete _ => true
  | _ => false

/-- C8 counterexample: `deleteAppointment` physically removes the row.
An appointment that was created (and present in the store) is gone after
the delete operation, so not every created appointment remains. -/
theorem appointments_physically_deleted_cex :
    applyOps [AppointmentOp.create
        ⟨"a1", "p", "d", 0, 1, AppointmentStatus.scheduled, none⟩] [] =
      [⟨"a1", "p", "d", 0, 1, AppointmentStatus.scheduled, none⟩] ∧
    applyOps [AppointmentOp.create
        ⟨"a1", "p", "d", 0, 1, AppointmentStatus.scheduled, none⟩,
      AppointmentOp.delete "a1"] [] = [] := by
  decide

theorem applyOp_id_mem (db : List Appointment) (op : AppointmentOp)
    (hop : isDeleteOp op = false) (i : String)
    (hi : i ∈ db.map Appointment.id) :
    i ∈ (applyOp db op).map Appointment.id := by
  cases op with
  | create a =>
    simp only [applyOp, List.map_append]
    exact List.mem_append_left _ hi
  | update j patch =>
    simp only [applyOp, List.map_map]
    have : (Appointment.id ∘ fun a =>
        if a.id == j then applyPatch patch a else a) = Appointment.id := by
      funext a
      simp only [Function.comp]
      split <;> simp [applyPatch]
    rw [this]
    exact hi
  | delete j => simp [isDeleteOp] at hop

/-- C8 amended: cancellation is a status patch through
`updateAppointment` and removes nothing — for any operation sequence
that contains no `deleteAppointment`, every appointment id present in
the store stays present; the module does, however, also expose
`deleteAppointment`, which physically removes the row. -/
theorem no_delete_preserves_appointments (ops : List AppointmentOp)
    (hops : ∀ op ∈ ops, isDeleteOp op = false) (db : List Appointment)
    (i : String) (hi : i ∈ db.map Appointment.id) :
    i ∈ (applyOps ops db).map Appointment.id := by
  induction ops generalizing db with
  | nil => exact hi
  | cons op rest ih =>
    have h1 : isDeleteOp op = false := hops op (List.mem_cons_self op rest)
    have h2 : ∀ o ∈ rest, isDeleteOp o = false :=
      fun o ho => hops o (List.mem_cons_of_mem op ho)
    simpa [applyOps] using
      ih h2 (applyOp db op) (applyOp_id_mem db op h1 i hi)

theorem no_delete_preserves_appointments_witness :
    "a1" ∈ (applyOps
      [AppointmentOp.update "a1"
        ⟨none, none, some AppointmentStatus.cancelled, none⟩]
      [⟨"a1", "p", "d", 0, 1, AppointmentStatus.scheduled, none⟩]).map
        Appointment.id :=
  no_delete_preserves_appointments
    [AppointmentOp.update "a1"
      ⟨none, none, some AppointmentStatus.cancelled, none⟩]
    (by decide)
    [⟨"a1", "p", "d", 0, 1, AppointmentStatus.scheduled, none⟩]
    "a1" (by decide)

/-! ## Theorems for the time policy -/

/-- C9: `isWeekday` holds exactly on Monday–Friday of the Argentina wall
clock, `isValidMedicalHour` exactly when the Argentina wall-clock hour
lies in `[8, 20)`, and `isFutureInArgentina` exactly when the instant is
strictly after the current one.  All three are total functions of the
timestamp (no side effects, no error outcomes). -/
theorem time_policy_correct (t now : Int) :
    (isWeekday t = true ↔ dayOfWeekInArgentina t ∈
      [DayOfWeek.monday, DayOfWeek.tuesday, DayOfWeek.wednesday,
       DayOfWeek.thursday, DayOfWeek.friday]) ∧
    (isValidMedicalHour t = true ↔
      8 ≤ argentinaLocalHour t ∧ argentinaLocalHour t < 20) ∧
    (isFutureInArgentina t now = true ↔ t > now) := by
  refine ⟨?_, ?_, ?_⟩
  · simp only [isWeekday, dayOfWeekInArgentina, Bool.and_eq_true,
      decide_eq_true_eq, ge_iff_le]
    have h0 : 0 ≤ jsGetDay (toArgentinaTimezone t) :=
      Int.emod_nonneg _ (by norm_num)
    have h7 : jsGetDay (toArgentinaTimezone t) < 7 :=
      Int.emod_lt_of_pos _ (by norm_num)
    set d := jsGetDay (toArgentinaTimezone t) with hd
    have : d = 0 ∨ d = 1 ∨ d = 2 ∨ d = 3 ∨ d = 4 ∨ d = 5 ∨ d = 6 := by
      omega
    rcases this with h | h | h | h | h | h | h <;> rw [h] <;> decide
  · simp only [isValidMedicalHour, argentinaLocalHour, Bool.and_eq_true,
      decide_eq_true_eq, ge_iff_le]
  · simp only [isFutureInArgentina, toArgentinaTimezone, gt_iff_lt,
      decide_eq_true_eq]
    omega

/-! ## Theorems for the e-mail retry loop -/




theorem emailSendGo_succ_ok
    (provider : Nat → Except String EmailProviderResponse)
    (N base attempt r : Nat) (lastError : Option String)
    (resp : EmailProviderResponse)
    (h : provider attempt = Except.ok resp) :
    emailSendGo provider N base attempt (r + 1) lastError =
      ⟨Except.ok resp, 1, []⟩ := by
  unfold emailSendGo
  rw [h]

theorem emailSendGo_succ_error
    (provider : Nat → Except String EmailProviderResponse)
    (N base attempt r : Nat) (lastError : Option String) (e : String)
    (h : provider attempt = Except.error e) :
    emailSendGo provider N base attempt (r + 1) lastError =
      ⟨(emailSendGo provider N base (attempt + 1) r (some e)).result,
       (emailSendGo provider N base (attempt + 1) r (some e)).transportCalls
         + 1,
       (if attempt < N then [base * attempt] else []) ++
         (emailSendGo provider N base (attempt + 1) r (some e)).delays⟩ := by
  conv_lhs => unfold emailSendGo
  rw [h]

theorem emailSendGo_all_fail
    (provider : Nat → Except String EmailProviderResponse)
    (msg : Nat → String) (N base : Nat) :
    ∀ (r attempt : Nat) (lastError : Option String),
      attempt + r = N + 1 → 1 ≤ r →
      (∀ i, attempt ≤ i → i ≤ N → provider i = Except.error (msg i)) →
      emailSendGo provider N base attempt r lastError =
        ⟨Except.error (sendFailureMessage N (some (msg N))), r,
         (List.range (r - 1)).map (fun j => base * (attempt + j))⟩ := by
  intro r
  induction r with
  | zero => omega
  | succ r' ih =>
    intro attempt lastError hsum hpos hfail
    have hattempt : attempt ≤ N := by omega
    have hcall : provider attempt = Except.error (msg attempt) :=
      hfail attempt le_rfl hattempt
    rw [emailSendGo_succ_error provider N base attempt r' lastError
      (msg attempt) hcall]
    cases r' with
    | zero =>
      have haN : attempt = N := by omega
      subst haN
      simp [emailSendGo]
    | succ r'' =>
      have hlt : attempt < N := by omega
      have hrec := ih (attempt + 1) (some (msg attempt)) (by omega)
        (by omega) (fun i hi hiN => hfail i (by omega) hiN)
      rw [hrec]
      simp only [Nat.add_sub_cancel, if_pos hlt]
      refine congrArg _ ?_
      rw [List.range_succ_eq_map, List.map_cons, List.map_map,
        List.singleton_append]
      refine congrArg₂ _ (by rw [Nat.add_zero]) ?_
      refine congrArg₂ List.map ?_ rfl
      funext j
      simp only [Function.comp, Nat.succ_eq_add_one]
      ring_nf

theorem emailSendGo_first_success
    (provider : Nat → Except String EmailProviderResponse)
    (N base k : Nat) (resp : EmailProviderResponse) :
    ∀ (r attempt : Nat) (lastError : Option String),
      attempt + r = N + 1 → attempt ≤ k → k ≤ N →
      (∀ i, attempt ≤ i → i < k → ∃ e, provider i = Except.error e) →
      provider k = Except.ok resp →
      (emailSendGo provider N base attempt r lastError).result =
        Except.ok resp ∧
      (emailSendGo provider N base attempt r lastError).transportCalls =
        k - attempt + 1 := by
  intro r
  induction r with
  | zero => omega
  | succ r' ih =>
    intro attempt lastError hsum hak hkN hfail hok
    by_cases hek : attempt = k
    · subst hek
      rw [emailSendGo_succ_ok provider N base attempt r' lastError resp hok]
      refine ⟨rfl, ?_⟩
      show (1 : Nat) = attempt - attempt + 1
      omega
    · have hlt : attempt < k := lt_of_le_of_ne hak hek
      obtain ⟨e, he⟩ := hfail attempt le_rfl hlt
      rw [emailSendGo_succ_error provider N base attempt r' lastError e he]
      have hrec := ih (attempt + 1) (some e) (by omega) (by omega) hkN
        (fun i hi hik => hfail i (by omega) hik) hok
      refine ⟨hrec.1, ?_⟩
      show (emailSendGo provider N base (attempt + 1) r' (some e)).transportCalls
          + 1 = k - attempt + 1
      rw [hrec.2]
      omega

/-- C2: with a transport failing on every attempt, `EmailService.send`
with `retryAttempts = N ≥ 1` and retry base delay `base` calls the
transport exactly `N` times, sleeps `i × base` before retry `i + 1`
(the delay list is `[base·1, …, base·(N−1)]`), and finally fails with
`Failed to send email after N attempts: <last error message>`; and if
the first success happens at attempt `k ≤ N`, that response is returned
after exactly `k` transport calls. -/
theorem emailService_send_retry (N base : Nat) (hN : 1 ≤ N) :
    (∀ (provider : Nat → Except String EmailProviderResponse)
       (msg : Nat → String),
      (∀ i, 1 ≤ i → i ≤ N → provider i = Except.error (msg i)) →
      emailSend provider N base =
        ⟨Except.error ("Failed to send email after " ++ toString N ++
           " attempts: " ++ msg N),
         N, (List.range (N - 1)).map (fun i => base * (1 + i))⟩) ∧
    (∀ (provider : Nat → Except String EmailProviderResponse)
       (k : Nat) (resp : EmailProviderResponse),
      1 ≤ k → k ≤ N →
      (∀ i, 1 ≤ i → i < k → ∃ e, provider i = Except.error e) →
      provider k = Except.ok resp →
      (emailSend provider N base).result = Except.ok resp ∧
      (emailSend provider N base).transportCalls = k) := by
  constructor
  · intro provider msg hfail
    have h := emailSendGo_all_fail provider msg N base N 1 none (by omega)
      hN hfail
    simpa [emailSend, sendFailureMessage] using h
  · intro provider k resp hk hkN hfail hok
    have h := emailSendGo_first_success provider N base k resp N 1 none
      (by omega) hk hkN hfail hok
    exact ⟨h.1, by rw [emailSend, h.2]; omega⟩

theorem emailService_send_retry_witness :
    emailSend (fun _ => Except.error "Provider error") defaultRetryAttempts
        defaultRetryDelayMs =
      ⟨Except.error "Failed to send email after 3 attempts: Provider error",
       3, [1000, 2000]⟩ ∧
    (emailSend (fun i => if i = 2 then Except.ok ⟨some "m1"⟩
        else Except.error "x") 3 1000).result = Except.ok ⟨some "m1"⟩ ∧
    (emailSend (fun i => if i = 2 then Except.ok ⟨some "m1"⟩
        else Except.error "x") 3 1000).transportCalls = 2 := by
  refine ⟨?_, ?_⟩
  · have h := (emailService_send_retry 3 1000 (by norm_num)).1
      (fun _ => Except.error "Provider error") (fun _ => "Provider error")
      (fun i _ _ => rfl)
    rw [defaultRetryAttempts, defaultRetryDelayMs, h]
    decide
  · have h := (emailService_send_retry 3 1000 (by norm_num)).2
      (fun i => if i = 2 then Except.ok ⟨some "m1"⟩ else Except.error "x")
      2 ⟨some "m1"⟩ (by norm_num) (by norm_num)
      (fun i h1 h2 => ⟨"x", by interval_cases i <;> rfl⟩) rfl
    exact h

/-! ## Theorems for the batch reminder loop -/

/-- Whether a per-item reminder send threw. -/
def exceptIsError (r : Except String Unit) : Bool :=
  match r with
  | Except.error _ => true
  | Except.ok _ => false

/-- The error entries produced by the failed items, in input order. -/
def batchErrorEntries (sendReminder : BatchReminderItem → Except String Unit)
    (items : List BatchReminderItem) : List String :=
  items.filterMap (fun it =>
    match sendReminder it with
    | Except.error e =>
      some ("Appointment " ++ it.appointment.id ++ ": " ++ e)
    | Except.ok _ => none)

theorem sendBatchReminders_foldl
    (sendReminder : BatchReminderItem → Except String Unit) :
    ∀ (items : List BatchReminderItem) (acc : BatchReminderResult),
      items.foldl
        (fun results item =>
          match sendReminder item with
          | Except.ok _ =>
            ⟨results.successful + 1, results.failed, results.errors⟩
          | Except.error e =>
            ⟨results.successful, results.failed + 1,
             results.errors ++
               ["Appointment " ++ item.appointment.id ++ ": " ++ e]⟩)
        acc =
      ⟨acc.successful + items.countP (fun it => !(exceptIsError (sendReminder it))),
       acc.failed + items.countP (fun it => exceptIsError (sendReminder it)),
       acc.errors ++ batchErrorEntries sendReminder items⟩ := by
  intro items
  induction items with
  | nil =>
    intro acc
    simp [batchErrorEntries]
  | cons it rest ih =>
    intro acc
    rw [List.foldl_cons]
    cases hre : sendReminder it with
    | ok u =>
      simp only [hre]
      rw [ih]
      simp [batchErrorEntries, List.filterMap_cons, hre, List.countP_cons,
        exceptIsError]
      omega
    | error e =>
      simp only [hre]
      rw [ih]
      simp [batchErrorEntries, List.filterMap_cons, hre, List.countP_cons,
        exceptIsError]
      omega

/-- C3: `sendBatchReminders` attempts every item in input order — each
item contributes exactly one outcome — and the returned record
satisfies `successful + failed = length`, `failed` counts exactly the
items whose send threw, and `errors` is the ordered per-failed-item
list whose entries carry the item's appointment id followed by `: ` and
the failure message. -/
theorem sendBatchReminders_spec
    (sendReminder : BatchReminderItem → Except String Unit)
    (items : List BatchReminderItem) :
    (sendBatchReminders sendReminder items).successful +
        (sendBatchReminders sendReminder items).failed = items.length ∧
    (sendBatchReminders sendReminder items).failed =
      (items.filter (fun it => exceptIsError (sendReminder it))).length ∧
    (sendBatchReminders sendReminder items).errors =
      batchErrorEntries sendReminder items ∧
    (∀ entry ∈ (sendBatchReminders sendReminder items).errors,
      ∃ it ∈ items, ∃ e, sendReminder it = Except.error e ∧
        entry = "Appointment " ++ (it.appointment.id ++ (": " ++ e))) := by
  have h := sendBatchReminders_foldl sendReminder items ⟨0, 0, []⟩
  have hb : sendBatchReminders sendReminder items =
      ⟨items.countP (fun it => !(exceptIsError (sendReminder it))),
       items.countP (fun it => exceptIsError (sendReminder it)),
       batchErrorEntries sendReminder items⟩ := by
    rw [sendBatchReminders, h]
    simp
  rw [hb]
  refine ⟨?_, ?_, rfl, ?_⟩
  · show items.countP _ + items.countP _ = items.length
    have hpred : (fun a => decide (¬ exceptIsError (sendReminder a) = true))
        = (fun it => !(exceptIsError (sendReminder it))) := by
      funext a
      cases exceptIsError (sendReminder a) <;> simp
    have hlen := List.length_eq_countP_add_countP
      (fun it => exceptIsError (sendReminder it)) items
    rw [hpred] at hlen
    omega
  · show items.countP _ = _
    rw [List.countP_eq_length_filter]
  · intro entry hentry
    rw [show (⟨items.countP (fun it => !(exceptIsError (sendReminder it))),
        items.countP (fun it => exceptIsError (sendReminder it)),
        batchErrorEntries sendReminder items⟩ :
        BatchReminderResult).errors = batchErrorEntries sendReminder items
      from rfl] at hentry
    rw [batchErrorEntries] at hentry
    obtain ⟨it, hit, hsome⟩ := List.mem_filterMap.mp hentry
    cases hre : sendReminder it with
    | ok u => rw [hre] at hsome; cases hsome
    | error e =>
      rw [hre] at hsome
      refine ⟨it, hit, e, hre, ?_⟩
      injection hsome with h
      rw [← h]
      simp [String.append_assoc]

theorem sendBatchReminders_spec_witness :
    (sendBatchReminders
      (fun it => if it.appointment.id == "apt-456" then
          Except.error "Network error" else Except.ok ())
      [⟨⟨"apt-123", "p1", "d1", 0, 1, AppointmentStatus.confirmed, none⟩,
        ⟨"Dr", "dr@x"⟩, ⟨"P1", "p1@x"⟩, 24⟩,
       ⟨⟨"apt-456", "p2", "d1", 2, 3, AppointmentStatus.confirmed, none⟩,
        ⟨"Dr", "dr@x"⟩, ⟨"P2", "p2@x"⟩, 2⟩,
       ⟨⟨"apt-789", "p3", "d1", 4, 5, AppointmentStatus.confirmed, none⟩,
        ⟨"Dr", "dr@x"⟩, ⟨"P3", "p3@x"⟩, 24⟩]).successful +
      (sendBatchReminders
        (fun it => if it.appointment.id == "apt-456" then
            Except.error "Network error" else Except.ok ())
        [⟨⟨"apt-123", "p1", "d1", 0, 1, AppointmentStatus.confirmed, none⟩,
          ⟨"Dr", "dr@x"⟩, ⟨"P1", "p1@x"⟩, 24⟩,
         ⟨⟨"apt-456", "p2", "d1", 2, 3, AppointmentStatus.confirmed, none⟩,
          ⟨"Dr", "dr@x"⟩, ⟨"P2", "p2@x"⟩, 2⟩,
         ⟨⟨"apt-789", "p3", "d1", 4, 5, AppointmentStatus.confirmed, none⟩,
          ⟨"Dr", "dr@x"⟩, ⟨"P3", "p3@x"⟩, 24⟩]).failed = 3 ∧
    (sendBatchReminders
      (fun it => if it.appointment.id == "apt-456" then
          Except.error "Network error" else Except.ok ())
      [⟨⟨"apt-123", "p1", "d1", 0, 1, AppointmentStatus.confirmed, none⟩,
        ⟨"Dr", "dr@x"⟩, ⟨"P1", "p1@x"⟩, 24⟩,
       ⟨⟨"apt-456", "p2", "d1", 2, 3, AppointmentStatus.confirmed, none⟩,
        ⟨"Dr", "dr@x"⟩, ⟨"P2", "p2@x"⟩, 2⟩,
       ⟨⟨"apt-789", "p3", "d1", 4, 5, AppointmentStatus.confirmed, none⟩,
        ⟨"Dr", "dr@x"⟩, ⟨"P3", "p3@x"⟩, 24⟩]).errors =
      ["Appointment apt-456: Network error"] := by
  have h := sendBatchReminders_spec
    (fun it => if it.appointment.id == "apt-456" then
        Except.error "Network error" else Except.ok ())
    [⟨⟨"apt-123", "p1", "d1", 0, 1, AppointmentStatus.confirmed, none⟩,
      ⟨"Dr", "dr@x"⟩, ⟨"P1", "p1@x"⟩, 24⟩,
     ⟨⟨"apt-456", "p2", "d1", 2, 3, AppointmentStatus.confirmed, none⟩,
      ⟨"Dr", "dr@x"⟩, ⟨"P2", "p2@x"⟩, 2⟩,
     ⟨⟨"apt-789", "p3", "d1", 4, 5, AppointmentStatus.confirmed, none⟩,
      ⟨"Dr", "dr@x"⟩, ⟨"P3", "p3@x"⟩, 24⟩]
  refine ⟨?_, ?_⟩
  · rw [h.1]
    rfl
  · rw [h.2.2.1]
    decide

/-! ## Theorems for the confirmation e-mail -/

/-- C4 counterexample: with a transport whose first (patient) delivery
succeeds and whose second (doctor-copy) delivery fails, and distinct
doctor/patient e-mail addresses, `sendConfirmationEmail` reports the
whole send as failed — the doctor-copy failure is not independent of
the primary send's reported outcome. -/
theorem sendConfirmationEmail_not_independent_cex :
    (fun i => if i = 0 then Except.ok () else Except.error "boom") 0 =
      (Except.ok () : Except String Unit) ∧
    sendConfirmationEmail
      (fun i => if i = 0 then Except.ok () else Except.error "boom")
      "garcia@clinic.com" "juan@email.com" =
      (Except.error "Failed to send confirmation email: boom", 2) ∧
    sendConfirmationEmail (fun _ => Except.ok ())
      "garcia@clinic.com" "juan@email.com" = (Except.ok (), 2) := by
  refine ⟨rfl, by decide, by decide⟩

/-- C4 amended: when the patient delivery succeeds and the doctor's
e-mail is non-empty and differs from the patient's, a second
doctor-facing delivery is made (two transport calls); the two calls are
not independent — a doctor-copy failure makes the whole confirmation
call report `Failed to send confirmation email: <message>` even though
the patient delivery succeeded.  When the doctor's e-mail equals the
patient's (or is empty), exactly one delivery is made. -/
theorem sendConfirmationEmail_spec (send : Nat → Except String Unit)
    (doctorEmail patientEmail : String) :
    (∀ e, send 0 = Except.error e →
      sendConfirmationEmail send doctorEmail patientEmail =
        (Except.error ("Failed to send confirmation email: " ++ e), 1)) ∧
    (send 0 = Except.ok () → (doctorEmail = "" ∨ doctorEmail = patientEmail) →
      sendConfirmationEmail send doctorEmail patientEmail =
        (Except.ok (), 1)) ∧
    (send 0 = Except.ok () → doctorEmail ≠ "" → doctorEmail ≠ patientEmail →
      (send 1 = Except.ok () →
        sendConfirmationEmail send doctorEmail patientEmail =
          (Except.ok (), 2)) ∧
      (∀ e, send 1 = Except.error e →
        sendConfirmationEmail send doctorEmail patientEmail =
          (Except.error ("Failed to send confirmation email: " ++ e), 2))) := by
  refine ⟨?_, ?_, ?_⟩
  · intro e h0
    rw [sendConfirmationEmail, h0]
  · intro h0 hsame
    rw [sendConfirmationEmail, h0]
    have : (!(doctorEmail == "") && !(doctorEmail == patientEmail)) = false := by
      rcases hsame with h | h <;> simp [h]
    rw [this]
    rfl
  · intro h0 hne hnp
    have hcond : (!(doctorEmail == "") && !(doctorEmail == patientEmail))
        = true := by
      simp [hne, hnp]
    constructor
    · intro h1
      rw [sendConfirmationEmail, h0, hcond]
      simp only [if_true]
      rw [h1]
    · intro e h1
      rw [sendConfirmationEmail, h0, hcond]
      simp only [if_true]
      rw [h1]

theorem sendConfirmationEmail_spec_witness :
    sendConfirmationEmail (fun _ => Except.ok ())
      "juan@email.com" "juan@email.com" = (Except.ok (), 1) ∧
    sendConfirmationEmail (fun _ => Except.ok ())
      "garcia@clinic.com" "juan@email.com" = (Except.ok (), 2) ∧
    sendConfirmationEmail (fun _ => Except.error "down")
      "garcia@clinic.com" "juan@email.com" =
      (Except.error "Failed to send confirmation email: down", 1) := by
  refine ⟨?_, ?_, ?_⟩
  · exact (sendConfirmationEmail_spec (fun _ => Except.ok ())
      "juan@email.com" "juan@email.com").2.1 rfl (Or.inr rfl)
  · exact ((sendConfirmationEmail_spec (fun _ => Except.ok ())
      "garcia@clinic.com" "juan@email.com").2.2 rfl (by decide) (by decide)).1
      rfl
  · exact (sendConfirmationEmail_spec (fun _ => Except.error "down")
      "garcia@clinic.com" "juan@email.com").1 "down" rfl

/-! ## Theorems for the calendar artifact generator -/

theorem mem_generateICSLines_method (now : Int) (fallbackUid : String)
    (event : ICSEventData) :
    "METHOD:REQUEST" ∈ generateICSLines now fallbackUid event := by
  simp [generateICSLines]

theorem mem_generateICSLines_uid (now : Int) (fallbackUid : String)
    (event : ICSEventData) :
    ("UID:" ++ event.uid.getD fallbackUid) ∈
      generateICSLines now fallbackUid event := by
  simp [generateICSLines]

theorem mem_generateICSLines_sequence (now : Int) (fallbackUid : String)
    (event : ICSEventData) (n : Nat) (h : event.sequence = some n) :
    ("SEQUENCE:" ++ toString n) ∈ generateICSLines now fallbackUid event := by
  simp [generateICSLines, h]

theorem mem_generateICSLines_status (now : Int) (fallbackUid : String)
    (event : ICSEventData) (s : ICSStatus) (h : event.status = some s) :
    ("STATUS:" ++ icsStatusText s) ∈ generateICSLines now fallbackUid event := by
  simp [generateICSLines, h]

/-- C5 counterexample: for a concrete appointment, the cancellation
artifact also carries `METHOD:REQUEST` (hard-coded in `generateICS`) and
no `METHOD:CANCEL` line, so the two artifacts do not differ in method. -/
theorem generateCancellationICS_method_cex :
    "METHOD:REQUEST" ∈ generateCancellationICSLines 0 "u"
      ⟨"apt-123", "patient-456", "doctor-789", 1705314600, 1705318200,
       AppointmentStatus.confirmed, none⟩
      "Dr. Garcia" "Juan Perez" none ∧
    "METHOD:CANCEL" ∉ generateCancellationICSLines 0 "u"
      ⟨"apt-123", "patient-456", "doctor-789", 1705314600, 1705318200,
       AppointmentStatus.confirmed, none⟩
      "Dr. Garcia" "Juan Perez" none ∧
    "METHOD:REQUEST" ∈ generateAppointmentICSLines 0 "u"
      ⟨"apt-123", "patient-456", "doctor-789", 1705314600, 1705318200,
       AppointmentStatus.confirmed, none⟩
      "Dr. Garcia" "Juan Perez" none none := by
  decide

/-- C5 amended: for every appointment the confirmation and the
cancellation artifacts share the identifier `<id>@autamedica.com`,
carry strictly increasing sequence numbers (0 then 1), and the
cancellation carries `STATUS:CANCELLED` — but the two artifacts do not
differ in method: `generateICS` hard-codes `METHOD:REQUEST`, so both
carry it. -/
theorem calendar_confirmation_cancellation_artifacts
    (now₁ now₂ : Int) (fallbackUid : String) (a : Appointment)
    (doctorName patientName : String)
    (doctorEmail patientEmail : Option String) (reason : Option String) :
    ("UID:" ++ (a.id ++ "@autamedica.com")) ∈
      generateAppointmentICSLines now₁ fallbackUid a doctorName patientName
        doctorEmail patientEmail ∧
    ("UID:" ++ (a.id ++ "@autamedica.com")) ∈
      generateCancellationICSLines now₂ fallbackUid a doctorName patientName
        reason ∧
    (appointmentICSEvent a doctorName patientName doctorEmail
        patientEmail).sequence = some 0 ∧
    (cancellationICSEvent a doctorName reason).sequence = some 1 ∧
    "SEQUENCE:0" ∈ generateAppointmentICSLines now₁ fallbackUid a doctorName
      patientName doctorEmail patientEmail ∧
    "SEQUENCE:1" ∈ generateCancellationICSLines now₂ fallbackUid a doctorName
      patientName reason ∧
    "STATUS:CANCELLED" ∈ generateCancellationICSLines now₂ fallbackUid a
      doctorName patientName reason ∧
    "METHOD:REQUEST" ∈ generateAppointmentICSLines now₁ fallbackUid a
      doctorName patientName doctorEmail patientEmail ∧
    "METHOD:REQUEST" ∈ generateCancellationICSLines now₂ fallbackUid a
      doctorName patientName reason := by
  refine ⟨?_, ?_, rfl, rfl, ?_, ?_, ?_, ?_, ?_⟩
  · exact mem_generateICSLines_uid now₁ fallbackUid
      (appointmentICSEvent a doctorName patientName doctorEmail patientEmail)
  · exact mem_generateICSLines_uid now₂ fallbackUid
      (cancellationICSEvent a doctorName reason)
  · have h := mem_generateICSLines_sequence now₁ fallbackUid
      (appointmentICSEvent a doctorName patientName doctorEmail patientEmail)
      0 rfl
    exact (by decide : ("SEQUENCE:" ++ toString 0) = "SEQUENCE:0") ▸ h
  · have h := mem_generateICSLines_sequence now₂ fallbackUid
      (cancellationICSEvent a doctorName reason) 1 rfl
    exact (by decide : ("SEQUENCE:" ++ toString 1) = "SEQUENCE:1") ▸ h
  · have h := mem_generateICSLines_status now₂ fallbackUid
      (cancellationICSEvent a doctorName reason) ICSStatus.cancelled rfl
    exact (by decide :
      ("STATUS:" ++ icsStatusText ICSStatus.cancelled) = "STATUS:CANCELLED") ▸ h
  · exact mem_generateICSLines_method now₁ fallbackUid
      (appointmentICSEvent a doctorName patientName doctorEmail patientEmail)
  · exact mem_generateICSLines_method now₂ fallbackUid
      (cancellationICSEvent a doctorName reason)
